import Mathlib

/-!
# Verification of the psychrometric engine (`src/psychrometrics.py`)

Shallow embedding of the property engine over the real numbers.  Every
definition below is a direct transcription of the corresponding Python
function; machine floats are modelled by `ℝ`, `numpy`'s `log`/`exp` by
`Real.log`/`Real.exp`.  The embedding is total: Lean's convention
`x / 0 = 0` stands in for the (unreachable in practice) float division by
an exact zero, and the one Python code path that can actually raise — the
altitude formula applying `**` to a negative base, which yields a complex
number and then a `TypeError` in the `min`/`max` comparison — is modelled
explicitly with `Except`.
-/

/-! ## Constants (module header of `psychrometrics.py`) -/

/-- Gas constant for dry air, J/(kg·K). -/
def R_a : ℝ := 287.05

/-- Standard atmospheric pressure, kPa. -/
def P_std : ℝ := 101.325

/-- Zero Celsius in Kelvin. -/
def T_0 : ℝ := 273.15

/-! ## Data model

The flat property record returned by the three resolver entry points. -/

structure MoistAirState where
  tbs : ℝ
  tbm : ℝ
  ur : ℝ
  w : ℝ
  tpo : ℝ
  h : ℝ
  v : ℝ
  p_v : ℝ
  p_ws : ℝ
  p_atm : ℝ

/-! ## AtmosphericPressureModel -/

/-- `calculate_atmospheric_pressure(altitude)`.

The Python `try: float(altitude) except: return P_std` conversion is
modelled by an `Option ℝ` argument (`none` = non-numeric/unparsable
input).  For a numeric altitude the code computes
`P_std * (1 - 2.25577e-5*altitude) ** 5.2559`; when the base
`1 - 2.25577e-5*altitude` is negative, Python's float `**` with a
non-integral exponent returns a *complex* number and the subsequent
`min(p_atm, P_std*1.1)` comparison raises an uncaught `TypeError`.
That failing path is modelled as `Except.error ()`; on a nonnegative
base the result is the clamped real power. -/
noncomputable def calculate_atmospheric_pressure (altitude : Option ℝ) : Except Unit ℝ :=
  match altitude with
  | none => Except.ok P_std
  | some a =>
    if 1 - 2.25577e-5 * a < 0 then Except.error ()
    else Except.ok (max (P_std * 0.1) (min (P_std * (1 - 2.25577e-5 * a) ^ (5.2559 : ℝ)) (P_std * 1.1)))

/-! ## SaturationModel -/

/-- `ln p_ws` (Pa) over liquid water, used for `t ≥ 0 °C`;
argument is the absolute temperature `T = t + 273.15`. -/
noncomputable def log_p_ws_liquid (T : ℝ) : ℝ :=
  -5.8002206e3 / T + 1.3914993 - 4.8640239e-2 * T +
    4.1764768e-5 * T ^ 2 - 1.4452093e-8 * T ^ 3 + 6.5459673 * Real.log T

/-- `ln p_ws` (Pa) over ice, used for `t < 0 °C`;
argument is the absolute temperature `T = t + 273.15`. -/
noncomputable def log_p_ws_ice (T : ℝ) : ℝ :=
  -5.6745359e3 / T + 6.3925247 - 9.677843e-3 * T +
    6.2215701e-7 * T ^ 2 + 2.0747825e-9 * T ^ 3 - 9.484024e-13 * T ^ 4 +
    4.1635019 * Real.log T

/-- `saturation_vapor_pressure(t)`: saturation vapor pressure in kPa at
dry-bulb temperature `t` in °C. -/
noncomputable def saturation_vapor_pressure (t : ℝ) : ℝ :=
  if 0 ≤ t then Real.exp (log_p_ws_liquid (t + T_0)) / 1000
  else Real.exp (log_p_ws_ice (t + T_0)) / 1000

/-! ## DerivedQuantities -/

/-- `humidity_ratio_from_vapor_pressure(p_v, p_atm)`. -/
noncomputable def humidity_ratio_from_vapor_pressure (p_v p_atm : ℝ) : ℝ :=
  0.62198 * p_v / (p_atm - p_v)

/-- `vapor_pressure_from_humidity_ratio(w, p_atm)`. -/
noncomputable def vapor_pressure_from_humidity_ratio (w p_atm : ℝ) : ℝ :=
  p_atm * w / (0.62198 + w)

/-- `relative_humidity_from_vapor_pressure(p_v, p_ws)`. -/
noncomputable def relative_humidity_from_vapor_pressure (p_v p_ws : ℝ) : ℝ :=
  100 * p_v / p_ws

/-- `dew_point_temperature(p_v)`: Magnus–Tetens inversion with the
very-dry shortcut and the `[-50, 60]` clamp. -/
noncomputable def dew_point_temperature (p_v : ℝ) : ℝ :=
  if p_v < 0.001 then -20.0
  else
    let gamma := Real.log (p_v * 1000 / 611.2)
    max (-50.0) (min (237.7 * gamma / (17.27 - gamma)) 60.0)

/-- `specific_volume(tbs, w, p_atm)`. -/
noncomputable def specific_volume (tbs w p_atm : ℝ) : ℝ :=
  R_a * (tbs + T_0) / (p_atm * 1000) * (1 + 1.6078 * w)

/-- `enthalpy(tbs, w)`. -/
noncomputable def enthalpy (tbs w : ℝ) : ℝ :=
  1.006 * tbs + w * (2501 + 1.86 * tbs)

/-! ## WetBulbSolver -/

/-- One `for i in range(max_iterations)` loop of `wet_bulb_temperature`,
written as structural recursion on the remaining iteration count.  The
fuel-exhausted case is the post-loop
`return max(-20.0, min(tbm, tbs))` fallback. -/
noncomputable def wet_bulb_loop (tbs w p_atm : ℝ) : ℕ → ℝ → ℝ
  | 0, tbm => max (-20.0) (min tbm tbs)
  | n + 1, tbm =>
    let p_ws_tbm := saturation_vapor_pressure tbm
    let w_s_tbm := humidity_ratio_from_vapor_pressure p_ws_tbm p_atm
    let h_fg := 2501 - 2.326 * tbm
    let c_pa := (1.006 : ℝ)
    let factor0 := h_fg - 4.186 * (tbs - tbm)
    let factor := if |factor0| < 0.001 then (if 0 ≤ factor0 then 0.001 else -0.001) else factor0
    let w_calc := (factor * w_s_tbm - c_pa * (tbs - tbm)) / factor
    if |w_calc - w| < 0.01 then tbm
    else
      let tbm1 := if w < w_calc then tbm - 0.05 else tbm + 0.05
      wet_bulb_loop tbs w p_atm n (max (-20.0) (min tbm1 tbs))

/-- `wet_bulb_temperature(tbs, w, p_atm)`: the iterative solver.  The
Python `isinstance` guard is vacuous here (all inputs are real), and the
`except:` branch is unreachable in real arithmetic (division is total),
so the embedding consists of the very-dry shortcut followed by the
bounded iteration. -/
noncomputable def wet_bulb_temperature (tbs w p_atm : ℝ) : ℝ :=
  if w ≤ 0.0001 then max (-20.0) (tbs - 15.0)
  else wet_bulb_loop tbs w p_atm 50 (tbs - 2.0)

/-! ## PropertyResolver -/

/-- `calculate_properties_tbs_tbm(tbs, tbm, p_atm)`: resolver entry point
from dry-bulb and wet-bulb temperatures. -/
noncomputable def calculate_properties_tbs_tbm (tbs tbm p_atm : ℝ) : MoistAirState :=
  if |tbs - tbm| < 0.01 then
    let p_ws_tbs := saturation_vapor_pressure tbs
    let p_v := p_ws_tbs
    let w := humidity_ratio_from_vapor_pressure p_v p_atm
    { tbs := tbs, tbm := tbm, ur := 100.0, w := w, tpo := tbs,
      h := enthalpy tbs w, v := specific_volume tbs w p_atm,
      p_v := p_v, p_ws := p_ws_tbs, p_atm := p_atm }
  else
    let p_ws_tbm := saturation_vapor_pressure tbm
    let p_ws_tbs := saturation_vapor_pressure tbs
    let h_fg := 2501 - 2.326 * tbm
    let w_s_tbm := humidity_ratio_from_vapor_pressure p_ws_tbm p_atm
    let w := ((h_fg - 4.186 * (tbs - tbm)) * w_s_tbm - 1.006 * (tbs - tbm)) /
      (h_fg - 4.186 * (tbs - tbm))
    let p_v := vapor_pressure_from_humidity_ratio w p_atm
    let ur := relative_humidity_from_vapor_pressure p_v p_ws_tbs
    let tpo := dew_point_temperature p_v
    { tbs := tbs, tbm := tbm, ur := ur, w := w, tpo := tpo,
      h := enthalpy tbs w, v := specific_volume tbs w p_atm,
      p_v := p_v, p_ws := p_ws_tbs, p_atm := p_atm }

/-- `calculate_properties_tbs_ur(tbs, ur, p_atm)`: resolver entry point
from dry-bulb temperature and relative humidity. -/
noncomputable def calculate_properties_tbs_ur (tbs ur p_atm : ℝ) : MoistAirState :=
  let p_ws_tbs := saturation_vapor_pressure tbs
  let p_v := ur / 100 * p_ws_tbs
  let w := humidity_ratio_from_vapor_pressure p_v p_atm
  let tpo := dew_point_temperature p_v
  let tbm := if |ur - 100.0| < 0.1 then tbs else wet_bulb_temperature tbs w p_atm
  { tbs := tbs, tbm := tbm, ur := ur, w := w, tpo := tpo,
    h := enthalpy tbs w, v := specific_volume tbs w p_atm,
    p_v := p_v, p_ws := p_ws_tbs, p_atm := p_atm }

/-- `calculate_properties_tbs_tpo(tbs, tpo, p_atm)`: resolver entry point
from dry-bulb and dew-point temperatures. -/
noncomputable def calculate_properties_tbs_tpo (tbs tpo p_atm : ℝ) : MoistAirState :=
  let p_ws_tbs := saturation_vapor_pressure tbs
  let p_v := saturation_vapor_pressure tpo
  let ur := relative_humidity_from_vapor_pressure p_v p_ws_tbs
  let w := humidity_ratio_from_vapor_pressure p_v p_atm
  let tbm := if |ur - 100.0| < 0.1 then tbs else wet_bulb_temperature tbs w p_atm
  { tbs := tbs, tbm := tbm, ur := ur, w := w, tpo := tpo,
    h := enthalpy tbs w, v := specific_volume tbs w p_atm,
    p_v := p_v, p_ws := p_ws_tbs, p_atm := p_atm }

/-! ## Claims -/

/-- **C1.** When `|tbs − tbm| < 0.01` (in particular for equal dry- and
wet-bulb inputs) the resolver `calculate_properties_tbs_tbm` takes the
saturation shortcut: the returned record has `ur = 100`, `tpo = tbs`
and `p_v = saturation_vapor_pressure tbs` exactly. -/
theorem C1_saturation_shortcut (tbs tbm p_atm : ℝ) (h : |tbs - tbm| < 0.01) :
    (calculate_properties_tbs_tbm tbs tbm p_atm).ur = 100 ∧
    (calculate_properties_tbs_tbm tbs tbm p_atm).tpo = tbs ∧
    (calculate_properties_tbs_tbm tbs tbm p_atm).p_v = saturation_vapor_pressure tbs := by
  simp only [calculate_properties_tbs_tbm, if_pos h]
  norm_num

/-- Witness for C1 at the concrete input `(25, 25, 101.325)`. -/
theorem C1_saturation_shortcut_witness :
    (calculate_properties_tbs_tbm 25 25 101.325).ur = 100 ∧
    (calculate_properties_tbs_tbm 25 25 101.325).tpo = 25 ∧
    (calculate_properties_tbs_tbm 25 25 101.325).p_v = saturation_vapor_pressure 25 :=
  C1_saturation_shortcut 25 25 101.325 (by norm_num)

/-- **C3.** For every humidity ratio `w ∈ (0, 0.03)` and every pressure
`p_atm ∈ (80, 105)`, converting to vapor pressure and back is the
identity — exactly, in real arithmetic. -/
theorem C3_round_trip (w p_atm : ℝ) (hw0 : 0 < w) (hw1 : w < 0.03)
    (hp0 : 80 < p_atm) (hp1 : p_atm < 105) :
    humidity_ratio_from_vapor_pressure (vapor_pressure_from_humidity_ratio w p_atm) p_atm = w := by
  have hd : (0 : ℝ) < 0.62198 + w := by linarith
  have hpa : p_atm ≠ 0 := by linarith
  unfold humidity_ratio_from_vapor_pressure vapor_pressure_from_humidity_ratio
  have hden : p_atm - p_atm * w / (0.62198 + w) = 0.62198 * p_atm / (0.62198 + w) := by
    field_simp
    ring
  rw [hden]
  have h1 : (0.62198 : ℝ) + w ≠ 0 := ne_of_gt hd
  field_simp
  ring

/-- Witness for C3 at `w = 0.01`, `p_atm = 101`. -/
theorem C3_round_trip_witness :
    humidity_ratio_from_vapor_pressure (vapor_pressure_from_humidity_ratio 0.01 101) 101 = 0.01 :=
  C3_round_trip 0.01 101 (by norm_num) (by norm_num) (by norm_num) (by norm_num)

/-- **C10.** Each resolver entry point stores its known scalar inputs
verbatim in the returned record, for every input (in particular the
echoed fields are never recomputed or clamped). -/
theorem C10_inputs_echoed (tbs tbm ur tpo p_atm : ℝ) :
    (calculate_properties_tbs_tbm tbs tbm p_atm).tbs = tbs ∧
    (calculate_properties_tbs_tbm tbs tbm p_atm).tbm = tbm ∧
    (calculate_properties_tbs_ur tbs ur p_atm).tbs = tbs ∧
    (calculate_properties_tbs_ur tbs ur p_atm).ur = ur ∧
    (calculate_properties_tbs_tpo tbs tpo p_atm).tbs = tbs ∧
    (calculate_properties_tbs_tpo tbs tpo p_atm).tpo = tpo := by
  refine ⟨?_, ?_, rfl, rfl, rfl, rfl⟩ <;>
    · simp only [calculate_properties_tbs_tbm]
      split_ifs <;> rfl

/-! ## Bounds for the wet-bulb solver loop -/

/-- The loop never raises its estimate above `tbs`, as long as the clamp
ceiling `tbs` sits above the clamp floor `-20`. -/
lemma wet_bulb_loop_le (tbs w p_atm : ℝ) (hts : (-20 : ℝ) ≤ tbs) :
    ∀ n tbm, tbm ≤ tbs → wet_bulb_loop tbs w p_atm n tbm ≤ tbs := by
  intro n
  induction n with
  | zero =>
    intro tbm _
    simp only [wet_bulb_loop]
    exact max_le (by norm_num [hts]) (min_le_right _ _)
  | succ n ih =>
    intro tbm htm
    simp only [wet_bulb_loop]
    split_ifs <;>
      first
        | exact htm
        | exact ih _ (max_le (by norm_num [hts]) (min_le_right _ _))

/-- The loop never lowers its estimate below `-20`, once the estimate is
at least `-20`. -/
lemma wet_bulb_loop_ge (tbs w p_atm : ℝ) :
    ∀ n tbm, (-20 : ℝ) ≤ tbm → -20 ≤ wet_bulb_loop tbs w p_atm n tbm := by
  intro n
  induction n with
  | zero =>
    intro tbm _
    simp only [wet_bulb_loop]
    exact le_trans (by norm_num) (le_max_left _ _)
  | succ n ih =>
    intro tbm htm
    simp only [wet_bulb_loop]
    split_ifs <;>
      first
        | exact htm
        | exact ih _ (le_trans (by norm_num) (le_max_left _ _))

/-- Upper bound of the solver: for `tbs ≥ -20` every exit path returns a
value `≤ tbs`. -/
lemma wet_bulb_temperature_le (tbs w p_atm : ℝ) (hts : (-20 : ℝ) ≤ tbs) :
    wet_bulb_temperature tbs w p_atm ≤ tbs := by
  unfold wet_bulb_temperature
  split_ifs with h1
  · exact max_le (by norm_num [hts]) (by linarith)
  · exact wet_bulb_loop_le tbs w p_atm hts 50 (tbs - 2.0) (by linarith)

/-- Lower bound of the solver: for `tbs ≥ -18` (so that the unclamped
initial guess `tbs - 2` is already `≥ -20`) every exit path returns a
value `≥ -20`. -/
lemma wet_bulb_temperature_ge (tbs w p_atm : ℝ) (hts : (-18 : ℝ) ≤ tbs) :
    (-20 : ℝ) ≤ wet_bulb_temperature tbs w p_atm := by
  unfold wet_bulb_temperature
  split_ifs with h1
  · exact le_trans (by norm_num) (le_max_left _ _)
  · exact wet_bulb_loop_ge tbs w p_atm 50 (tbs - 2.0) (by linarith)

/-- **C2 (amended).** For every `tbs ≥ -18 °C` and all `w`, `p_atm`, the
wet-bulb solver's output lies in `[-20, tbs]` on every exit path
(convergence, iteration-cap fallback, and the very-dry-air shortcut).
The original claim, quantified over *all* valid inputs, is false: for
`tbs < -20` the very-dry shortcut `max(-20, tbs - 15)` exceeds `tbs`,
and for `tbs < -18` an immediate first-iteration convergence can return
the unclamped initial guess `tbs - 2 < -20`. -/
theorem C2_wet_bulb_bounds (tbs w p_atm : ℝ) (hts : (-18 : ℝ) ≤ tbs) :
    (-20 : ℝ) ≤ wet_bulb_temperature tbs w p_atm ∧
    wet_bulb_temperature tbs w p_atm ≤ tbs :=
  ⟨wet_bulb_temperature_ge tbs w p_atm hts,
   wet_bulb_temperature_le tbs w p_atm (by linarith)⟩

/-- Witness for C2 at the concrete input `(25, 0.01, 101.325)`. -/
theorem C2_wet_bulb_bounds_witness :
    (-20 : ℝ) ≤ wet_bulb_temperature 25 0.01 101.325 ∧
    wet_bulb_temperature 25 0.01 101.325 ≤ 25 :=
  C2_wet_bulb_bounds 25 0.01 101.325 (by norm_num)

/-- **C2 counterexample.** At `tbs = -30`, `w = 0.00005`,
`p_atm = 101.325` the very-dry shortcut returns `-20`, which violates
the claimed `result ≤ tbs`. -/
theorem C2_wet_bulb_bounds_counterexample :
    wet_bulb_temperature (-30) 0.00005 101.325 = -20 ∧
    ¬ wet_bulb_temperature (-30) 0.00005 101.325 ≤ -30 := by
  have he : wet_bulb_temperature (-30) 0.00005 101.325 = -20 := by
    unfold wet_bulb_temperature
    rw [if_pos (by norm_num)]
    norm_num
  exact ⟨he, by rw [he]; norm_num⟩

/-- **C4 (amended).** `tbm ≤ tbs` holds in the record returned by
`calculate_properties_tbs_tbm` whenever the *input* satisfies
`tbm ≤ tbs` (the field is echoed verbatim), and in the records returned
by `calculate_properties_tbs_ur` / `calculate_properties_tbs_tpo`
whenever `tbs ≥ -20`.  The original unconditional claim is false:
the resolver enforces no precondition, so a caller-supplied `tbm > tbs`
is stored as-is. -/
theorem C4_tbm_le_tbs (tbs tbm ur tpo p_atm : ℝ) :
    (tbm ≤ tbs → (calculate_properties_tbs_tbm tbs tbm p_atm).tbm ≤ tbs) ∧
    ((-20 : ℝ) ≤ tbs → (calculate_properties_tbs_ur tbs ur p_atm).tbm ≤ tbs) ∧
    ((-20 : ℝ) ≤ tbs → (calculate_properties_tbs_tpo tbs tpo p_atm).tbm ≤ tbs) := by
  refine ⟨?_, ?_, ?_⟩
  · intro h
    simp only [calculate_properties_tbs_tbm]
    split_ifs <;> exact h
  · intro h
    simp only [calculate_properties_tbs_ur]
    split_ifs with h1
    · exact le_refl tbs
    · exact wet_bulb_temperature_le tbs _ p_atm h
  · intro h
    simp only [calculate_properties_tbs_tpo]
    split_ifs with h1
    · exact le_refl tbs
    · exact wet_bulb_temperature_le tbs _ p_atm h

/-- Witness for C4 at concrete inputs. -/
theorem C4_tbm_le_tbs_witness :
    (calculate_properties_tbs_tbm 25 18 101.325).tbm ≤ 25 ∧
    (calculate_properties_tbs_ur 25 50 101.325).tbm ≤ 25 ∧
    (calculate_properties_tbs_tpo 25 15 101.325).tbm ≤ 25 :=
  ⟨(C4_tbm_le_tbs 25 18 50 15 101.325).1 (by norm_num),
   (C4_tbm_le_tbs 25 18 50 15 101.325).2.1 (by norm_num),
   (C4_tbm_le_tbs 25 18 50 15 101.325).2.2 (by norm_num)⟩

/-- **C4 counterexample.** `calculate_properties_tbs_tbm 25 30 101.325`
echoes the caller-supplied wet bulb `30 > 25` into the record, so the
invariant `tbm ≤ tbs` fails. -/
theorem C4_tbm_le_tbs_counterexample :
    (calculate_properties_tbs_tbm 25 30 101.325).tbm = 30 ∧
    ¬ (calculate_properties_tbs_tbm 25 30 101.325).tbm ≤ 25 := by
  have he : (calculate_properties_tbs_tbm 25 30 101.325).tbm = 30 := by
    simp only [calculate_properties_tbs_tbm]
    rw [if_neg (by norm_num)]
  exact ⟨he, by rw [he]; norm_num⟩

/-- **C7 (code evaluation at the failing input).**  For altitude
`50000 m` the barometric base `1 - 2.25577e-5·50000` is negative, so the
Python `**` produces a complex number and the subsequent `min`
comparison raises an uncaught `TypeError` — the function is *not* total.
The fail-soft path for unparsable input (returning `P_std`) does work as
claimed. -/
theorem C7_pressure_error_at_extreme_altitude :
    calculate_atmospheric_pressure (some 50000) = Except.error () ∧
    calculate_atmospheric_pressure none = Except.ok P_std := by
  constructor
  · simp only [calculate_atmospheric_pressure]
    rw [if_pos (by norm_num)]
  · rfl

/-- **C9.** `dew_point_temperature` returns exactly `-20 °C` for every
`p_v < 0.001 kPa`, and for every `p_v ≥ 0.001 kPa` returns the
Magnus–Tetens value `237.7·γ/(17.27 − γ)` with `γ = ln(p_v·1000/611.2)`,
clamped into `[-50, 60] °C` (the right-hand sides below are transcribed
from the spec's words; options never raise — the embedding is a total
real function). -/
theorem C9_dew_point_spec (p_v : ℝ) :
    (p_v < 0.001 → dew_point_temperature p_v = -20) ∧
    (0.001 ≤ p_v →
      dew_point_temperature p_v =
        max (-50) (min (237.7 * Real.log (p_v * 1000 / 611.2) /
          (17.27 - Real.log (p_v * 1000 / 611.2))) 60)) := by
  constructor
  · intro h
    simp only [dew_point_temperature, if_pos h]
    norm_num
  · intro h
    simp only [dew_point_temperature, if_neg (not_lt.mpr h)]
    norm_num

/-- Witness for C9 at `p_v = 0.0005` (dry shortcut) — the theorem
applied at a concrete input. -/
theorem C9_dew_point_spec_witness :
    dew_point_temperature 0.0005 = -20 :=
  (C9_dew_point_spec 0.0005).1 (by norm_num)

/-! ## Numeric bounds on `exp` and `log` at the constants of the
correlations, needed to settle the remaining claims. -/

lemma real_exp_five_le : Real.exp 5 ≤ 2.7182818286 ^ 5 := by
  have h : (5 : ℝ) = ((5 : ℕ) : ℝ) * 1 := by norm_num
  rw [h, Real.exp_nat_mul]
  exact pow_le_pow_left₀ (Real.exp_pos 1).le Real.exp_one_lt_d9.le 5

lemma real_exp_six_ge : (2.7182818283 : ℝ) ^ 6 ≤ Real.exp 6 := by
  have h : (6 : ℝ) = ((6 : ℕ) : ℝ) * 1 := by norm_num
  rw [h, Real.exp_nat_mul]
  exact pow_le_pow_left₀ (by norm_num) Real.exp_one_gt_d9.le 6

lemma real_exp_six_le : Real.exp 6 ≤ 2.7182818286 ^ 6 := by
  have h : (6 : ℝ) = ((6 : ℕ) : ℝ) * 1 := by norm_num
  rw [h, Real.exp_nat_mul]
  exact pow_le_pow_left₀ (Real.exp_pos 1).le Real.exp_one_lt_d9.le 6

lemma exp_06_ub : Real.exp 0.60999 ≤ 1.8404134 := by
  have hb := Real.exp_bound' (show (0:ℝ) ≤ 0.60999 by norm_num)
    (show (0.60999:ℝ) ≤ 1 by norm_num) (show 0 < 7 by norm_num)
  refine hb.trans ?_
  norm_num [Finset.sum_range_succ, Nat.factorial]

lemma exp_069_ub : Real.exp 0.6974 ≤ 2.0085246 := by
  have hb := Real.exp_bound' (show (0:ℝ) ≤ 0.6974 by norm_num)
    (show (0.6974:ℝ) ≤ 1 by norm_num) (show 0 < 7 by norm_num)
  refine hb.trans ?_
  norm_num [Finset.sum_range_succ, Nat.factorial]

lemma exp_041_lb : (1.515431 : ℝ) ≤ Real.exp 0.4157 := by
  have hb := Real.sum_le_exp_of_nonneg (show (0:ℝ) ≤ 0.4157 by norm_num) 8
  refine le_trans ?_ hb
  norm_num [Finset.sum_range_succ, Nat.factorial]

/-- `ln 273.15 ≥ 5.60999`, precise enough to separate the two
correlation branches at the 0 °C boundary. -/
lemma log_27315_ge : (5.60999 : ℝ) ≤ Real.log 273.15 := by
  rw [Real.le_log_iff_exp_le (by norm_num)]
  have h : (5.60999 : ℝ) = 5 + 0.60999 := by norm_num
  rw [h, Real.exp_add]
  calc Real.exp 5 * Real.exp 0.60999 ≤ 2.7182818286 ^ 5 * 1.8404134 :=
        mul_le_mul real_exp_five_le exp_06_ub (Real.exp_pos _).le (by norm_num)
    _ ≤ 273.15 := by norm_num

/-- `ln 298.15 ≥ 5.6974`. -/
lemma log_29815_ge : (5.6974 : ℝ) ≤ Real.log 298.15 := by
  rw [Real.le_log_iff_exp_le (by norm_num)]
  have h : (5.6974 : ℝ) = 5 + 0.6974 := by norm_num
  rw [h, Real.exp_add]
  calc Real.exp 5 * Real.exp 0.6974 ≤ 2.7182818286 ^ 5 * 2.0085246 :=
        mul_le_mul real_exp_five_le exp_069_ub (Real.exp_pos _).le (by norm_num)
    _ ≤ 298.15 := by norm_num

/-- `ln 611.2 ≤ 6.4157`. -/
lemma log_6112_le : Real.log 611.2 ≤ 6.4157 := by
  rw [Real.log_le_iff_le_exp (by norm_num)]
  have h : (6.4157 : ℝ) = 6 + 0.4157 := by norm_num
  rw [h, Real.exp_add]
  calc (611.2 : ℝ) ≤ 2.7182818283 ^ 6 * 1.515431 := by norm_num
    _ ≤ Real.exp 6 * Real.exp 0.4157 :=
        mul_le_mul real_exp_six_ge exp_041_lb (by norm_num) (Real.exp_pos _).le

lemma log_18315_le : Real.log 183.15 ≤ 6 := by
  rw [Real.log_le_iff_le_exp (by norm_num)]
  calc (183.15 : ℝ) ≤ 2.7182818283 ^ 6 := by norm_num
    _ ≤ Real.exp 6 := real_exp_six_ge

lemma log_29815_le : Real.log 298.15 ≤ 6 := by
  rw [Real.log_le_iff_le_exp (by norm_num)]
  calc (298.15 : ℝ) ≤ 2.7182818283 ^ 6 := by norm_num
    _ ≤ Real.exp 6 := real_exp_six_ge

lemma log_6112_ge : (6 : ℝ) ≤ Real.log 611.2 := by
  rw [Real.le_log_iff_exp_le (by norm_num)]
  calc Real.exp 6 ≤ 2.7182818286 ^ 6 := real_exp_six_le
    _ ≤ 611.2 := by norm_num

lemma log_29815_ge5 : (5 : ℝ) ≤ Real.log 298.15 := by
  rw [Real.le_log_iff_exp_le (by norm_num)]
  calc Real.exp 5 ≤ 2.7182818286 ^ 5 := real_exp_five_le
    _ ≤ 298.15 := by norm_num

/-- The saturation correlation always returns a (strictly) positive
pressure. -/
lemma saturation_vapor_pressure_pos (t : ℝ) : 0 < saturation_vapor_pressure t := by
  unfold saturation_vapor_pressure
  split_ifs <;> positivity

/-- At `-90 °C` the ice correlation gives a saturation pressure below
the dew-point/dry-air threshold of `0.001 kPa`. -/
lemma sat_neg90_small : saturation_vapor_pressure (-90) < 0.001 := by
  unfold saturation_vapor_pressure
  rw [if_neg (by norm_num)]
  have hT : (-90 : ℝ) + T_0 = 183.15 := by norm_num [T_0]
  rw [hT]
  have hlog : log_p_ws_ice 183.15 < 0 := by
    unfold log_p_ws_ice
    nlinarith [log_18315_le]
  have hexp : Real.exp (log_p_ws_ice 183.15) < 1 := Real.exp_lt_one_iff.mpr hlog
  linarith

/-- **C5 (amended).** The saturation shortcut of
`calculate_properties_tbs_ur` is taken exactly when `|ur − 100| < 0.1`
(i.e. `99.9 < ur < 100.1`), not when `ur ≥ 99.9`: inside the window the
record's `tbm` is `tbs`, outside it `tbm` is the wet-bulb solver's
output. -/
theorem C5_rh_saturation_shortcut (tbs ur p_atm : ℝ) :
    (|ur - 100.0| < 0.1 → (calculate_properties_tbs_ur tbs ur p_atm).tbm = tbs) ∧
    (0.1 ≤ |ur - 100.0| →
      (calculate_properties_tbs_ur tbs ur p_atm).tbm =
        wet_bulb_temperature tbs
          (humidity_ratio_from_vapor_pressure (ur / 100 * saturation_vapor_pressure tbs) p_atm)
          p_atm) := by
  constructor
  · intro h
    simp only [calculate_properties_tbs_ur]
    rw [if_pos h]
  · intro h
    simp only [calculate_properties_tbs_ur]
    rw [if_neg (not_lt.mpr h)]

/-- Witness for C5: at `ur = 100` the shortcut fires and `tbm = tbs`. -/
theorem C5_rh_saturation_shortcut_witness :
    (calculate_properties_tbs_ur 25 100 101.325).tbm = 25 :=
  (C5_rh_saturation_shortcut 25 100 101.325).1 (by norm_num [abs_sub_lt_iff])

/-- **C5 counterexample.** At `ur = 99.9` (which satisfies the claimed
shortcut condition `ur ≥ 99.9`) the code takes the *solver* branch,
because `|99.9 − 100| = 0.1` is not `< 0.1`; at `tbs = -90 °C` the
resulting humidity ratio is below the very-dry threshold and the solver
returns `-20 ≠ tbs`. -/
theorem C5_rh_saturation_shortcut_counterexample :
    (calculate_properties_tbs_ur (-90) 99.9 101.325).tbm = -20 ∧
    (calculate_properties_tbs_ur (-90) 99.9 101.325).tbm ≠ -90 := by
  have hsat := sat_neg90_small
  have hsatpos := saturation_vapor_pressure_pos (-90)
  have he : (calculate_properties_tbs_ur (-90) 99.9 101.325).tbm = -20 := by
    simp only [calculate_properties_tbs_ur]
    have habs : ¬ |(99.9 : ℝ) - 100.0| < 0.1 := by
      rw [show (99.9 : ℝ) - 100.0 = -(1/10) by norm_num, abs_neg,
        abs_of_nonneg (by norm_num : (0:ℝ) ≤ 1/10)]
      norm_num
    rw [if_neg habs]
    unfold wet_bulb_temperature
    rw [if_pos ?hw]
    case hw =>
      unfold humidity_ratio_from_vapor_pressure
      have hpv1 : (99.9 : ℝ) / 100 * saturation_vapor_pressure (-90) < 0.001 := by nlinarith
      have hpv0 : (0 : ℝ) < 99.9 / 100 * saturation_vapor_pressure (-90) := by positivity
      calc 0.62198 * (99.9 / 100 * saturation_vapor_pressure (-90)) /
            (101.325 - 99.9 / 100 * saturation_vapor_pressure (-90)) ≤
          0.62198 * 0.001 / 101.324 := by
            apply div_le_div (by norm_num) (by nlinarith) (by norm_num) (by nlinarith)
        _ ≤ 0.0001 := by norm_num
    norm_num
  exact ⟨he, by rw [he]; norm_num⟩

/-- The Magnus–Tetens inversion applied to the correlation's saturation
pressure at 25 °C gives a dew point strictly *above* 25 °C (about
25.04 °C): the two empirical fits do not invert each other exactly. -/
lemma dew_point_sat25_gt : 25 < dew_point_temperature (saturation_vapor_pressure 25) := by
  have hL1 := log_29815_ge
  have hL2 := log_29815_le
  have hL5 := log_29815_ge5
  have h611a := log_6112_le
  have h611b := log_6112_ge
  have hsat : saturation_vapor_pressure 25 = Real.exp (log_p_ws_liquid 298.15) / 1000 := by
    unfold saturation_vapor_pressure
    rw [if_pos (by norm_num), show (25:ℝ) + T_0 = 298.15 by norm_num [T_0]]
  have hexp1 : (1:ℝ) ≤ Real.exp (log_p_ws_liquid 298.15) := by
    have hF : (0:ℝ) ≤ log_p_ws_liquid 298.15 := by
      unfold log_p_ws_liquid
      nlinarith [hL5]
    calc (1:ℝ) = Real.exp 0 := Real.exp_zero.symm
      _ ≤ _ := Real.exp_le_exp.mpr hF
  rw [hsat]
  simp only [dew_point_temperature]
  rw [if_neg (by push_neg; linarith)]
  have harg : Real.exp (log_p_ws_liquid 298.15) / 1000 * 1000 / 611.2
      = Real.exp (log_p_ws_liquid 298.15) / 611.2 := by
    field_simp
  rw [harg, Real.log_div (Real.exp_ne_zero _) (by norm_num), Real.log_exp]
  set G := log_p_ws_liquid 298.15 - Real.log 611.2 with hG
  have hGlb : 431.75 / 262.7 < G := by
    rw [hG]
    unfold log_p_ws_liquid
    linarith
  have hGub : G < 17.27 := by
    rw [hG]
    unfold log_p_ws_liquid
    linarith
  have hpos : (0:ℝ) < 17.27 - G := by linarith
  have hx : (25:ℝ) < 237.7 * G / (17.27 - G) := by
    rw [lt_div_iff hpos]
    nlinarith [hGlb]
  calc (25:ℝ) < min (237.7 * G / (17.27 - G)) 60.0 := lt_min hx (by norm_num)
    _ ≤ max (-50.0) (min (237.7 * G / (17.27 - G)) 60.0) := le_max_right _ _

/-- **C6 (code evaluation at the failing input).**  For
`calculate_properties_tbs_ur 25 100 101.325` the saturation shortcut
does set `tbm = 25` exactly, but `tpo` is computed by the Magnus–Tetens
inversion of the correlation value `p_ws(25)` and comes out strictly
greater than 25 (≈ 25.04), so the claimed `tpo == 25.0` fails on the
code. -/
theorem C6_rh100_scenario_code_eval :
    (calculate_properties_tbs_ur 25 100 101.325).tbm = 25 ∧
    25 < (calculate_properties_tbs_ur 25 100 101.325).tpo := by
  constructor
  · simp only [calculate_properties_tbs_ur]
    rw [if_pos (by norm_num)]
  · simp only [calculate_properties_tbs_ur]
    rw [show (100:ℝ)/100 * saturation_vapor_pressure 25 = saturation_vapor_pressure 25 by
      rw [show (100:ℝ)/100 = 1 by norm_num, one_mul]]
    exact dew_point_sat25_gt

/-! ## Monotonicity of the saturation correlation (claim C8) -/

/-- The over-liquid correlation is strictly increasing on
`[273.15, 333.15]` (0 °C to 60 °C). -/
lemma log_p_ws_liquid_strictMono (T1 T2 : ℝ) (ha : 273.15 ≤ T1) (hab : T1 < T2)
    (hb : T2 ≤ 333.15) : log_p_ws_liquid T1 < log_p_ws_liquid T2 := by
  have hT1 : (0:ℝ) < T1 := by linarith
  have hT2 : (0:ℝ) < T2 := by linarith
  have hlog : Real.log T1 ≤ Real.log T2 := (Real.log_lt_log hT1 hab).le
  have hTT : (0:ℝ) < T1 * T2 := mul_pos hT1 hT2
  rw [← sub_pos]
  have expand : log_p_ws_liquid T2 - log_p_ws_liquid T1 =
      (T2 - T1) * (5.8002206e3 / (T1 * T2) - 4.8640239e-2 +
        4.1764768e-5 * (T1 + T2) - 1.4452093e-8 * (T1^2 + T1*T2 + T2^2)) +
      6.5459673 * (Real.log T2 - Real.log T1) := by
    unfold log_p_ws_liquid
    field_simp
    ring
  rw [expand]
  have hfr : 5.8002206e3 / (333.15 * 333.15) ≤ 5.8002206e3 / (T1 * T2) := by
    rw [div_le_div_iff (by norm_num) hTT]
    nlinarith
  have hbr : (0.02 : ℝ) ≤ 5.8002206e3 / (T1 * T2) - 4.8640239e-2 +
      4.1764768e-5 * (T1 + T2) - 1.4452093e-8 * (T1^2 + T1*T2 + T2^2) := by
    nlinarith [hfr]
  have hprod := mul_le_mul_of_nonneg_left hbr (sub_pos.mpr hab).le
  linarith [hprod, hlog, sub_pos.mpr hab]

/-- The over-ice correlation is strictly increasing on
`[223.15, 273.15]` (−50 °C to 0 °C). -/
lemma log_p_ws_ice_strictMono (T1 T2 : ℝ) (ha : 223.15 ≤ T1) (hab : T1 < T2)
    (hb : T2 ≤ 273.15) : log_p_ws_ice T1 < log_p_ws_ice T2 := by
  have hT1 : (0:ℝ) < T1 := by linarith
  have hT2 : (0:ℝ) < T2 := by linarith
  have hlog : Real.log T1 ≤ Real.log T2 := (Real.log_lt_log hT1 hab).le
  have hTT : (0:ℝ) < T1 * T2 := mul_pos hT1 hT2
  rw [← sub_pos]
  have expand : log_p_ws_ice T2 - log_p_ws_ice T1 =
      (T2 - T1) * (5.6745359e3 / (T1 * T2) - 9.677843e-3 +
        6.2215701e-7 * (T1 + T2) + 2.0747825e-9 * (T1^2 + T1*T2 + T2^2) -
        9.484024e-13 * (T1^3 + T1^2*T2 + T1*T2^2 + T2^3)) +
      4.1635019 * (Real.log T2 - Real.log T1) := by
    unfold log_p_ws_ice
    field_simp
    ring
  rw [expand]
  have hfr : 5.6745359e3 / (273.15 * 273.15) ≤ 5.6745359e3 / (T1 * T2) := by
    rw [div_le_div_iff (by norm_num) hTT]
    nlinarith
  have e1 : T1 ≤ 273.15 := by linarith
  have c1 : T1^3 ≤ 273.15^3 := by nlinarith
  have c2 : T1^2*T2 ≤ 273.15^3 := by nlinarith
  have c3 : T1*T2^2 ≤ 273.15^3 := by nlinarith
  have c4 : T2^3 ≤ 273.15^3 := by nlinarith
  have hbr : (0.06 : ℝ) ≤ 5.6745359e3 / (T1 * T2) - 9.677843e-3 +
      6.2215701e-7 * (T1 + T2) + 2.0747825e-9 * (T1^2 + T1*T2 + T2^2) -
      9.484024e-13 * (T1^3 + T1^2*T2 + T1*T2^2 + T2^3) := by
    nlinarith [hfr, c1, c2, c3, c4]
  have hprod := mul_le_mul_of_nonneg_left hbr (sub_pos.mpr hab).le
  linarith [hprod, hlog, sub_pos.mpr hab]

/-- At the 0 °C branch boundary the ice correlation sits (slightly)
below the liquid correlation: `ln 611.15 Pa` vs `ln 611.21 Pa`.  The
margin is about `1.2e-4` in the logarithm, so the proof needs
`ln 273.15` to five decimal places. -/
lemma branch_boundary : log_p_ws_ice 273.15 ≤ log_p_ws_liquid 273.15 := by
  unfold log_p_ws_ice log_p_ws_liquid
  linarith [log_27315_ge]

/-- **C8.** `saturation_vapor_pressure` is strictly increasing on the
supported domain `[-50, 60] °C`, including across the 0 °C boundary
between the over-ice and over-liquid correlations. -/
theorem C8_saturation_monotone (t1 t2 : ℝ) (h1 : -50 ≤ t1) (h12 : t1 < t2)
    (h2 : t2 ≤ 60) :
    saturation_vapor_pressure t1 < saturation_vapor_pressure t2 := by
  unfold saturation_vapor_pressure
  rcases le_or_lt 0 t1 with ha | ha
  · have hb : (0:ℝ) ≤ t2 := by linarith
    rw [if_pos ha, if_pos hb]
    have hmono : log_p_ws_liquid (t1 + T_0) < log_p_ws_liquid (t2 + T_0) :=
      log_p_ws_liquid_strictMono (t1 + T_0) (t2 + T_0)
        (by simp only [T_0]; linarith) (by linarith) (by simp only [T_0]; linarith)
    have := Real.exp_lt_exp.mpr hmono
    linarith
  · rcases le_or_lt 0 t2 with hb | hb
    · rw [if_neg (not_le.mpr ha), if_pos hb]
      have hice : log_p_ws_ice (t1 + T_0) < log_p_ws_ice 273.15 :=
        log_p_ws_ice_strictMono (t1 + T_0) 273.15
          (by simp only [T_0]; linarith) (by simp only [T_0]; linarith) le_rfl
      have hliq : log_p_ws_liquid 273.15 ≤ log_p_ws_liquid (t2 + T_0) := by
        rcases eq_or_lt_of_le hb with heq | hlt
        · rw [show t2 + T_0 = 273.15 by simp only [T_0]; linarith]
        · exact (log_p_ws_liquid_strictMono 273.15 (t2 + T_0) le_rfl
            (by simp only [T_0]; linarith) (by simp only [T_0]; linarith)).le
      have hlt2 : log_p_ws_ice (t1 + T_0) < log_p_ws_liquid (t2 + T_0) := by
        linarith [branch_boundary]
      have := Real.exp_lt_exp.mpr hlt2
      linarith
    · rw [if_neg (not_le.mpr ha), if_neg (not_le.mpr hb)]
      have hmono : log_p_ws_ice (t1 + T_0) < log_p_ws_ice (t2 + T_0) :=
        log_p_ws_ice_strictMono (t1 + T_0) (t2 + T_0)
          (by simp only [T_0]; linarith) (by linarith) (by simp only [T_0]; linarith)
      have := Real.exp_lt_exp.mpr hmono
      linarith

/-- Witness for C8 across the branch boundary: `p_ws(-1) < p_ws(1)`. -/
theorem C8_saturation_monotone_witness :
    saturation_vapor_pressure (-1) < saturation_vapor_pressure 1 :=
  C8_saturation_monotone (-1) 1 (by norm_num) (by norm_num) (by norm_num)
